import Mathlib

/-!
Shallow embedding of the stock-analysis program (src/main.py and src/app.py).

Python floats are modelled as exact rationals `ℚ`; Python `None` and values
that may be absent are modelled with `Option`; a Python function that may
raise is modelled by an `Option`-valued input standing for the outcome of the
external call.  External collaborators (the yfinance download, the yfinance
ticker-info lookup, and the `ta`/pandas indicator math) are parameters of the
embedded functions, since their code is not part of this repository.
-/

/-- The indicator snapshot produced by `analyze_stock`
(keys price, rsi, sma50, sma200, volume_strong in the source dict). -/
structure Snapshot where
  price : ℚ
  rsi : ℚ
  sma50 : ℚ
  sma200 : ℚ
  volume_strong : Bool
deriving DecidableEq, Repr

/-- One daily price bar; `analyze_stock` only reads the Close and Volume
columns of the downloaded frame, so only those are modelled. -/
structure PriceBar where
  close : ℚ
  volume : ℚ
deriving DecidableEq, Repr

/-- Result dict of `calculate_min_lots`
(keys lots, cost, fee_pct in the source). -/
structure LotSuggestion where
  lots : ℕ
  cost : ℚ
  fee_pct : ℚ
deriving DecidableEq, Repr

/-- Python `str.endswith` over the character contents of the strings,
used for the `.KL` and `.HK` suffix tests in the source. -/
def str_ends_with (s post : String) : Bool :=
  post.data.isSuffixOf s.data

/-- Stamp duty of a Malaysian trade: `math.ceil(total_value / 1000)`,
floored at 1 (src/main.py lines 83-84, src/app.py lines 64-65). -/
def stampDuty (total_value : ℚ) : ℤ :=
  let d := ⌈total_value / 1000⌉
  if d < 1 then 1 else d

/-- Fee percentage of buying `lots` lots (of 100 units) at unit price
`price_per_unit`: the loop body of `calculate_min_lots`
(src/main.py lines 80-90, src/app.py lines 63-69). -/
def feePct (price_per_unit : ℚ) (lots : ℕ) : ℚ :=
  let total_value := price_per_unit * 100 * lots
  let stamp_duty := stampDuty total_value
  let clearing_fee := total_value * 0.0003
  let platform_fee : ℚ := 3.00
  let total_fee := platform_fee + (stamp_duty : ℚ) + clearing_fee
  (total_fee / total_value) * 100

/-- The `for lots in range(1, 100)` search of `calculate_min_lots`: returns at
the first lot count in the list whose fee percentage is below 1.0, else falls
through (src/main.py lines 79-93, src/app.py lines 62-71). -/
def lotLoop (price_per_unit : ℚ) : List ℕ → Option LotSuggestion
  | [] => none
  | L :: rest =>
    if feePct price_per_unit L < 1.0 then
      some ⟨L, price_per_unit * 100 * L, feePct price_per_unit L⟩
    else
      lotLoop price_per_unit rest

/-- `calculate_min_lots` (src/main.py lines 71-95, src/app.py lines 58-73,
identical): `none` for non-`.KL` tickers; else the first lot count in 1..99
whose fee percentage is under 1.0, or the hard-coded fallback of one lot with
cost price_per_unit*100 and fee_pct 100. -/
def calculate_min_lots (price_per_unit : ℚ) (ticker : String) : Option LotSuggestion :=
  if str_ends_with ticker ".KL" = false then
    none
  else
    match lotLoop price_per_unit (List.range' 1 99) with
    | some r => some r
    | none => some ⟨1, price_per_unit * 100, 100⟩

/-- The first lot count in ascending order 1..99 whose fee percentage is
strictly below 1.0, stated directly as a search over the ascending list; used
to compare the loop in `calculate_min_lots` against the spec wording. -/
def firstQualifyingLot (price_per_unit : ℚ) : Option ℕ :=
  (List.range' 1 99).find? (fun L => decide (feePct price_per_unit L < 1.0))

/-- The three shapes of the user-facing target message built in `main`
(src/main.py lines 216-222, src/app.py lines 172-178); the string formatting
is external rendering, so only the chosen branch and the computed discount are
modelled. -/
inductive TargetMsg where
  | wait (discount : ℚ)
  | buyNow
  | noEntry
deriving DecidableEq, Repr

/-- Target-message derivation of `main` (src/main.py lines 216-222,
src/app.py lines 172-178, identical branching). -/
def target_message (price target : ℚ) : TargetMsg :=
  if target > 0 ∧ price > target then
    TargetMsg.wait ((price - target) / price * 100)
  else if target > 0 then
    TargetMsg.buyNow
  else
    TargetMsg.noEntry

/-- Verdict dict of main.py's `generate_long_term_verdict`
(keys category, verdict, target_price). -/
structure VerdictMain where
  category : String
  verdict : String
  target_price : ℚ
deriving DecidableEq, Repr

/-- Verdict dict of app.py's `generate_long_term_verdict`
(keys category, target_price). -/
structure VerdictApp where
  category : String
  target_price : ℚ
deriving DecidableEq, Repr

namespace MainPy

/-- `generate_long_term_verdict` of src/main.py (lines 123-167). -/
def generate_long_term_verdict (stock_data : Snapshot) : VerdictMain :=
  let price := stock_data.price
  let sma50 := stock_data.sma50
  let sma200 := stock_data.sma200
  let rsi := stock_data.rsi
  let vol_strong := stock_data.volume_strong
  let is_bull_market := sma50 > sma200
  let is_price_healthy := price > sma200
  if is_bull_market ∧ is_price_healthy then
    if rsi < 55 then
      ⟨"💎 STRONG BUY (Discount)", "", price⟩
    else if rsi > 70 then
      ⟨"✅ HOLD / WAIT (Overheated)", "", sma50⟩
    else if vol_strong then
      ⟨"🚀 BUY (High Momentum)", "", price⟩
    else
      ⟨"📈 BUY / ACCUMULATE", "", price⟩
  else if ¬ is_bull_market then
    ⟨"⛔ AVOID / SELL", "", 0.0⟩
  else
    ⟨"⚠️ CAUTION (Trend Testing)", "", sma200⟩

end MainPy

namespace AppPy

/-- `generate_long_term_verdict` of src/app.py (lines 95-121). -/
def generate_long_term_verdict (stock_data : Snapshot) : VerdictApp :=
  let price := stock_data.price
  let sma50 := stock_data.sma50
  let sma200 := stock_data.sma200
  let rsi := stock_data.rsi
  let vol_strong := stock_data.volume_strong
  let is_bull_market := sma50 > sma200
  let is_price_healthy := price > sma200
  if is_bull_market ∧ is_price_healthy then
    if rsi < 55 then
      ⟨"💎 STRONG BUY (Discount)", price⟩
    else if rsi > 70 then
      ⟨"✅ HOLD / WAIT (Overheated)", sma50⟩
    else
      ⟨if vol_strong then "🚀 BUY (High Momentum)" else "📈 BUY / ACCUMULATE", price⟩
  else if ¬ is_bull_market then
    ⟨"⛔ AVOID / SELL", 0.0⟩
  else
    ⟨"⚠️ CAUTION (Trend Testing)", sma200⟩

end AppPy

/-- Truthiness of a Python float-or-None value: `None` and `0` are falsy. -/
def pyTruthy : Option ℚ → Bool
  | none => false
  | some x => x != 0

/-- Python `a or b` on float-or-None values: the first operand if truthy,
else the second. -/
def pyOr (a b : Option ℚ) : Option ℚ :=
  if pyTruthy a then a else b

/-- Truthiness of a Python string-or-None value: `None` and the empty string
are falsy. -/
def pyStrTruthy : Option String → Bool
  | none => false
  | some s => s != ""

/-- Python `a or b` on string-or-None values. -/
def pyOrStr (a b : Option String) : Option String :=
  if pyStrTruthy a then a else b

/-- The fields `get_stock_info` reads from the yfinance `info` dict.  Each
field holds what `info.get(key, 0)` returns: `none` models a stored Python
`None`, and an absent key is modelled by `some 0` (the `get` default). -/
structure TickerInfo where
  longName : Option String
  shortName : Option String
  dividendRate : Option ℚ
  currentPrice : Option ℚ
  previousClose : Option ℚ
  dividendYield : Option ℚ
deriving DecidableEq, Repr

/-- Dividend-yield computation of `get_stock_info`
(src/main.py lines 52-64, src/app.py lines 39-51, identical). -/
def yield_pct (info : TickerInfo) : ℚ :=
  let div_rate := info.dividendRate
  let current_price := pyOr info.currentPrice info.previousClose
  if pyTruthy div_rate ∧ pyTruthy current_price ∧ 0 < current_price.getD 0 then
    div_rate.getD 0 / current_price.getD 0 * 100
  else
    match info.dividendYield with
    | none => 0.0
    | some raw_yield => if raw_yield < 1 then raw_yield * 100 else raw_yield

/-- Display-name computation of src/main.py's `get_stock_info`
(lines 34-41): combine long and short names when both are truthy and
different, else fall back through `long or short or ticker`. -/
def display_name (info : TickerInfo) (ticker : String) : String :=
  let long_name := info.longName
  let short_name := info.shortName
  if pyStrTruthy long_name ∧ pyStrTruthy short_name ∧ long_name ≠ short_name then
    long_name.getD "" ++ " - " ++ short_name.getD ""
  else
    (pyOrStr long_name (pyOrStr short_name (some ticker))).getD ticker

/-- Currency detection of `get_stock_info`
(src/main.py lines 44-49, src/app.py lines 32-37). -/
def currency_of (ticker : String) : String :=
  if str_ends_with ticker ".KL" then "RM"
  else if str_ends_with ticker ".HK" then "HKD"
  else "USD"

/-- `get_stock_info` of src/main.py (lines 27-68).  The `lookup` argument is
the outcome of the external `yf.Ticker(ticker).info` call: `none` means that
call raised, taking the source's bare `except` branch which returns
`(ticker, 0.0, "N/A")`. -/
def get_stock_info (lookup : Option TickerInfo) (ticker : String) : String × ℚ × String :=
  match lookup with
  | none => (ticker, 0.0, "N/A")
  | some info => (display_name info ticker, yield_pct info, currency_of ticker)

/-- `analyze_stock` (src/main.py lines 98-120, src/app.py lines 76-92): with
fewer than 200 bars it returns `None`; otherwise it builds the indicator
snapshot.  The `indicators` parameter stands for the external `ta`/pandas
indicator math (RSI, SMA, rolling volume average) applied to the frame. -/
def analyze_stock (indicators : List PriceBar → Snapshot) (df : List PriceBar) :
    Option Snapshot :=
  if df.length < 200 then none
  else some (indicators df)

/-- One finalized per-ticker record appended to `portfolio_analysis` in
src/main.py's `main` (lines 187-197). -/
structure Record where
  ticker : String
  name : String
  currency : String
  div_yield : ℚ
  stats : Snapshot
  analysis : VerdictMain
  smart_lots : Option LotSuggestion
deriving DecidableEq, Repr

/-- The per-ticker body of the loop in src/main.py's `main` (lines 180-197):
fetch metadata and bars, skip when the frame is empty or `analyze_stock`
returns `None`, else assemble the record.  `fetch` stands for the external
`fetch_data` download and `lookup` for the external ticker-info call inside
`get_stock_info`. -/
def processTicker (indicators : List PriceBar → Snapshot)
    (fetch : String → List PriceBar)
    (lookup : String → Option TickerInfo) (ticker : String) : Option Record :=
  let meta := get_stock_info (lookup ticker) ticker
  let df := fetch ticker
  if df.isEmpty then none
  else
    match analyze_stock indicators df with
    | none => none
    | some stats =>
      some ⟨ticker, meta.1, meta.2.2, meta.2.1, stats,
            MainPy.generate_long_term_verdict stats,
            calculate_min_lots stats.price ticker⟩

/-- The `portfolio_analysis` list built by the driving loop of src/main.py's
`main` (lines 176-197): records of the successfully analyzed tickers, in
configured order. -/
def mainReport (indicators : List PriceBar → Snapshot)
    (fetch : String → List PriceBar)
    (lookup : String → Option TickerInfo) (tickers : List String) : List Record :=
  tickers.filterMap (processTicker indicators fetch lookup)

/-- A constant stand-in for the external indicator math, used to instantiate
the loop theorems at concrete inputs. -/
def constIndicators : List PriceBar → Snapshot := fun _ => ⟨0, 0, 0, 0, false⟩

/-- A concrete fetch collaborator returning 150 bars for every ticker. -/
def shortFetch : String → List PriceBar := fun _ => List.replicate 150 ⟨1, 1⟩

/-- A concrete fetch collaborator returning 200 bars for every ticker. -/
def longFetch : String → List PriceBar := fun _ => List.replicate 200 ⟨1, 1⟩

/-- A concrete metadata collaborator whose lookup always fails. -/
def noLookup : String → Option TickerInfo := fun _ => none

/-! ### Helper lemmas about the lot sizer -/

theorem stampDuty_of_le {x : ℚ} (h : x ≤ 1000) : stampDuty x = 1 := by
  unfold stampDuty
  have hle : ⌈x / 1000⌉ ≤ 1 := by
    rw [Int.ceil_le]
    push_cast
    linarith
  by_cases hlt : ⌈x / 1000⌉ < 1
  · simp [hlt]
  · simp [hlt, le_antisymm hle (not_lt.1 hlt)]

theorem feePct_eq (p : ℚ) (L : ℕ) :
    feePct p L =
      (3.00 + (stampDuty (p * 100 * L) : ℚ) + p * 100 * L * 0.0003) / (p * 100 * L) * 100 := rfl

theorem lotLoop_eq_find (p : ℚ) (xs : List ℕ) :
    lotLoop p xs =
      (xs.find? (fun L => decide (feePct p L < 1.0))).map
        (fun L => (⟨L, p * 100 * L, feePct p L⟩ : LotSuggestion)) := by
  induction xs with
  | nil => rfl
  | cons L rest ih =>
    by_cases h : feePct p L < 1.0
    · rw [List.find?_cons_of_pos _ (by simpa using h)]
      simp only [lotLoop, if_pos h, Option.map_some']
    · rw [List.find?_cons_of_neg _ (by simpa using h)]
      simp only [lotLoop, if_neg h, ih]

theorem low_price_feePct_not_lt_one {L : ℕ} (h1 : 1 ≤ L) (h2 : L < 100) :
    ¬ feePct (1/100) L < 1.0 := by
  have hL0 : (0:ℚ) < L := by exact_mod_cast h1
  have hL99 : (L:ℚ) < 100 := by exact_mod_cast h2
  have htv : (1:ℚ)/100 * 100 * (L:ℚ) = (L:ℚ) := by ring
  rw [feePct_eq, htv, stampDuty_of_le (by linarith)]
  rw [not_lt, div_mul_eq_mul_div, le_div_iff₀ hL0]
  norm_num
  nlinarith [hL0, hL99]

theorem calculate_min_lots_eq (p : ℚ) (ticker : String)
    (h : str_ends_with ticker ".KL" = true) :
    calculate_min_lots p ticker =
      some (((firstQualifyingLot p).map
        (fun L => (⟨L, p * 100 * L, feePct p L⟩ : LotSuggestion))).getD
          ⟨1, p * 100, 100⟩) := by
  unfold calculate_min_lots
  rw [if_neg (by simp [h]), lotLoop_eq_find]
  unfold firstQualifyingLot
  rcases hf : (List.range' 1 99).find? (fun L => decide (feePct p L < 1.0)) with _ | L <;> rfl

/-- C1 counterexample: at unit price 1/100 (a .KL ticker) no lot count in
1..99 brings the fee percentage under 1.0, and the lot sizer then returns
fee_pct = 100, which is not the fee percentage actually computed at L = 1
(that is 400.03). -/
theorem lot_sizer_fallback_counterexample :
    firstQualifyingLot (1/100) = none ∧
    calculate_min_lots (1/100) "TEST.KL" = some ⟨1, 1, 100⟩ ∧
    feePct (1/100) 1 ≠ 100 := by
  have hnone : firstQualifyingLot (1/100) = none := by
    unfold firstQualifyingLot
    rw [List.find?_eq_none]
    intro L hL
    rw [List.mem_range'_1] at hL
    simpa using low_price_feePct_not_lt_one hL.1 (by omega)
  refine ⟨hnone, ?_, ?_⟩
  · rw [calculate_min_lots_eq _ _ (by decide), hnone]
    norm_num
  · norm_num [feePct_eq, stampDuty_of_le]

/-- C1 (amended): for every unit price p > 0 and every .KL ticker, the lot
sizer returns the first lot count L in ascending order 1..99 whose fee
percentage is strictly below 1.0, together with cost p*100*L and that fee
percentage; and if no L in 1..99 qualifies, it returns L = 1 with cost p*100
and a hard-coded fee percentage of 100. -/
theorem lot_sizer_search_and_fallback (p : ℚ) (ticker : String)
    (hp : 0 < p) (hkl : str_ends_with ticker ".KL" = true) :
    (∀ L, firstQualifyingLot p = some L →
      calculate_min_lots p ticker = some ⟨L, p * 100 * (L : ℚ), feePct p L⟩) ∧
    (firstQualifyingLot p = none →
      calculate_min_lots p ticker = some ⟨1, p * 100, 100⟩) := by
  constructor
  · intro L hL
    rw [calculate_min_lots_eq p ticker hkl, hL]
    rfl
  · intro h0
    rw [calculate_min_lots_eq p ticker hkl, h0]
    rfl

theorem lot_sizer_search_and_fallback_witness :
    (0:ℚ) < 3 ∧ str_ends_with "MAYBANK.KL" ".KL" = true ∧
    firstQualifyingLot 3 = some 2 ∧
    calculate_min_lots 3 "MAYBANK.KL" = some ⟨2, 3 * 100 * ((2 : ℕ) : ℚ), feePct 3 2⟩ := by
  have e1 : ¬ feePct 3 1 < 1.0 := by norm_num [feePct_eq, stampDuty_of_le]
  have e2 : feePct 3 2 < 1.0 := by norm_num [feePct_eq, stampDuty_of_le]
  have h2 : firstQualifyingLot 3 = some 2 := by
    unfold firstQualifyingLot
    rw [show List.range' 1 99 = 1 :: 2 :: List.range' 3 97 from rfl]
    rw [List.find?_cons_of_neg _ (by simpa using e1),
        List.find?_cons_of_pos _ (by simpa using e2)]
  exact ⟨by norm_num, by decide, h2,
    (lot_sizer_search_and_fallback 3 "MAYBANK.KL" (by norm_num) (by decide)).1 2 h2⟩

/-- C5: for every ticker whose symbol does not end in .KL and every positive
unit price, the lot sizer returns none (not applicable), never reaching the
lot search. -/
theorem lot_sizer_non_my_none (p : ℚ) (ticker : String) (hp : 0 < p)
    (h : str_ends_with ticker ".KL" = false) :
    calculate_min_lots p ticker = none := by
  unfold calculate_min_lots
  rw [if_pos h]

theorem lot_sizer_non_my_none_witness :
    (0:ℚ) < 5 ∧ str_ends_with "AAPL" ".KL" = false ∧
    calculate_min_lots 5 "AAPL" = none :=
  ⟨by norm_num, by decide, lot_sizer_non_my_none 5 "AAPL" (by norm_num) (by decide)⟩

/-- C10: every non-none result of the lot sizer, the fallback branch
included, satisfies 1 <= lots <= 99 and cost = price_per_unit * 100 * lots,
for every positive unit price. -/
theorem lot_sizer_result_invariant (p : ℚ) (ticker : String) (r : LotSuggestion)
    (hp : 0 < p) (h : calculate_min_lots p ticker = some r) :
    1 ≤ r.lots ∧ r.lots ≤ 99 ∧ r.cost = p * 100 * (r.lots : ℚ) := by
  by_cases hk : str_ends_with ticker ".KL" = true
  · rw [calculate_min_lots_eq p ticker hk] at h
    rcases hf : firstQualifyingLot p with _ | L
    · rw [hf] at h
      simp only [Option.map_none', Option.getD_none, Option.some.injEq] at h
      subst h
      refine ⟨le_refl 1, by norm_num, ?_⟩
      norm_num
    · rw [hf] at h
      simp only [Option.map_some', Option.getD_some, Option.some.injEq] at h
      subst h
      have hmem : L ∈ List.range' 1 99 := by
        unfold firstQualifyingLot at hf
        exact List.mem_of_find?_eq_some hf
      rw [List.mem_range'_1] at hmem
      have h99 : L ≤ 99 := by omega
      exact ⟨hmem.1, h99, rfl⟩
  · rw [lot_sizer_non_my_none p ticker hp (by simpa using hk)] at h
    cases h

theorem lot_sizer_result_invariant_witness :
    (0:ℚ) < 10 ∧
    calculate_min_lots 10 "B.KL" = some ⟨1, 1000, 43/100⟩ ∧
    (1 ≤ (1:ℕ) ∧ (1:ℕ) ≤ 99 ∧ (1000:ℚ) = 10 * 100 * (((1:ℕ)) : ℚ)) := by
  have e1 : feePct 10 1 < 1.0 := by norm_num [feePct_eq, stampDuty_of_le]
  have h1 : firstQualifyingLot 10 = some 1 := by
    unfold firstQualifyingLot
    rw [show List.range' 1 99 = 1 :: List.range' 2 98 from rfl]
    rw [List.find?_cons_of_pos _ (by simpa using e1)]
  have hcml : calculate_min_lots 10 "B.KL" = some ⟨1, 1000, 43/100⟩ := by
    rw [calculate_min_lots_eq 10 "B.KL" (by decide), h1]
    norm_num [feePct_eq, stampDuty_of_le]
  exact ⟨by norm_num, hcml,
    lot_sizer_result_invariant 10 "B.KL" ⟨1, 1000, 43/100⟩ (by norm_num) hcml⟩

/-- C2: for every indicator snapshot with sma50 <= sma200, both copies of
the verdict engine return the AVOID / SELL category and target price 0,
regardless of rsi, price and volume strength. -/
theorem verdict_bear_avoid_sell (s : Snapshot) (h : s.sma50 ≤ s.sma200) :
    (MainPy.generate_long_term_verdict s).category = "⛔ AVOID / SELL" ∧
    (MainPy.generate_long_term_verdict s).target_price = 0 ∧
    (AppPy.generate_long_term_verdict s).category = "⛔ AVOID / SELL" ∧
    (AppPy.generate_long_term_verdict s).target_price = 0 := by
  have hb : ¬ s.sma50 > s.sma200 := not_lt.2 h
  norm_num [MainPy.generate_long_term_verdict, AppPy.generate_long_term_verdict, hb]

theorem verdict_bear_avoid_sell_witness :
    ((⟨10, 50, 1, 2, false⟩ : Snapshot).sma50 ≤ (⟨10, 50, 1, 2, false⟩ : Snapshot).sma200) ∧
    ((MainPy.generate_long_term_verdict ⟨10, 50, 1, 2, false⟩).category = "⛔ AVOID / SELL" ∧
     (MainPy.generate_long_term_verdict ⟨10, 50, 1, 2, false⟩).target_price = 0 ∧
     (AppPy.generate_long_term_verdict ⟨10, 50, 1, 2, false⟩).category = "⛔ AVOID / SELL" ∧
     (AppPy.generate_long_term_verdict ⟨10, 50, 1, 2, false⟩).target_price = 0) :=
  ⟨by norm_num, verdict_bear_avoid_sell ⟨10, 50, 1, 2, false⟩ (by norm_num)⟩

/-- C3: for every indicator snapshot with sma50 > sma200, price > sma200 and
rsi < 55, both copies of the verdict engine return the STRONG BUY (Discount)
category and a target price equal to the snapshot price. -/
theorem verdict_strong_buy_discount (s : Snapshot) (h1 : s.sma50 > s.sma200)
    (h2 : s.price > s.sma200) (h3 : s.rsi < 55) :
    (MainPy.generate_long_term_verdict s).category = "💎 STRONG BUY (Discount)" ∧
    (MainPy.generate_long_term_verdict s).target_price = s.price ∧
    (AppPy.generate_long_term_verdict s).category = "💎 STRONG BUY (Discount)" ∧
    (AppPy.generate_long_term_verdict s).target_price = s.price := by
  norm_num [MainPy.generate_long_term_verdict, AppPy.generate_long_term_verdict, h1, h2, h3]

theorem verdict_strong_buy_discount_witness :
    ((⟨108, 50, 105, 100, false⟩ : Snapshot).sma50 > (⟨108, 50, 105, 100, false⟩ : Snapshot).sma200) ∧
    ((MainPy.generate_long_term_verdict ⟨108, 50, 105, 100, false⟩).category = "💎 STRONG BUY (Discount)" ∧
     (MainPy.generate_long_term_verdict ⟨108, 50, 105, 100, false⟩).target_price = (⟨108, 50, 105, 100, false⟩ : Snapshot).price ∧
     (AppPy.generate_long_term_verdict ⟨108, 50, 105, 100, false⟩).category = "💎 STRONG BUY (Discount)" ∧
     (AppPy.generate_long_term_verdict ⟨108, 50, 105, 100, false⟩).target_price = (⟨108, 50, 105, 100, false⟩ : Snapshot).price) :=
  ⟨by norm_num,
   verdict_strong_buy_discount ⟨108, 50, 105, 100, false⟩ (by norm_num) (by norm_num) (by norm_num)⟩

/-- C9: the two copies of the verdict engine, in src/main.py and src/app.py,
are extensionally equal: on every snapshot they return the same category and
the same target price. -/
theorem verdict_engines_extensionally_equal (s : Snapshot) :
    (MainPy.generate_long_term_verdict s).category =
      (AppPy.generate_long_term_verdict s).category ∧
    (MainPy.generate_long_term_verdict s).target_price =
      (AppPy.generate_long_term_verdict s).target_price := by
  simp only [MainPy.generate_long_term_verdict, AppPy.generate_long_term_verdict]
  split_ifs <;> exact ⟨rfl, rfl⟩

/-- C4: the wait-for-target message is produced only when price is strictly
greater than the target, and then carries discount (price - target)/price*100;
at price = target > 0 the message is buy now; at target = 0 it is no entry. -/
theorem target_message_boundaries (price target : ℚ) :
    (∀ d, target_message price target = TargetMsg.wait d → price > target) ∧
    (0 < target → price > target →
      target_message price target = TargetMsg.wait ((price - target) / price * 100)) ∧
    (0 < target → price = target → target_message price target = TargetMsg.buyNow) ∧
    (target = 0 → target_message price target = TargetMsg.noEntry) := by
  refine ⟨?_, ?_, ?_, ?_⟩
  · intro d hd
    unfold target_message at hd
    split_ifs at hd with h1 h2
    exact h1.2
  · intro ht hgt
    unfold target_message
    rw [if_pos ⟨ht, hgt⟩]
  · intro ht heq
    have hc : ¬ (target > 0 ∧ price > target) := by
      rintro ⟨-, hgt⟩
      rw [heq] at hgt
      exact lt_irrefl target hgt
    unfold target_message
    rw [if_neg hc, if_pos ht]
  · intro h0
    have hc1 : ¬ (target > 0 ∧ price > target) := by
      rintro ⟨ht, -⟩
      rw [h0] at ht
      exact lt_irrefl 0 ht
    have hc2 : ¬ target > 0 := by
      rw [h0]
      exact lt_irrefl 0
    unfold target_message
    rw [if_neg hc1, if_neg hc2]

theorem target_message_boundaries_witness :
    (0:ℚ) < 5 ∧ target_message 5 5 = TargetMsg.buyNow :=
  ⟨by norm_num, (target_message_boundaries 5 5).2.2.1 (by norm_num) rfl⟩

/-- C6: with fewer than 200 bars the snapshot builder produces no snapshot,
and the driving loop emits no record for that ticker: the final report over
any ticker list containing it equals the report over the surrounding tickers,
so later tickers are still processed. -/
theorem insufficient_history_excluded (indicators : List PriceBar → Snapshot)
    (fetch : String → List PriceBar) (lookup : String → Option TickerInfo)
    (pre post : List String) (t : String)
    (h : (fetch t).length < 200) :
    analyze_stock indicators (fetch t) = none ∧
    mainReport indicators fetch lookup (pre ++ t :: post) =
      mainReport indicators fetch lookup pre ++
        mainReport indicators fetch lookup post := by
  have han : analyze_stock indicators (fetch t) = none := by
    unfold analyze_stock
    rw [if_pos h]
  refine ⟨han, ?_⟩
  have hpt : processTicker indicators fetch lookup t = none := by
    simp only [processTicker]
    by_cases he : (fetch t).isEmpty = true
    · rw [if_pos he]
    · rw [if_neg he, han]
  unfold mainReport
  rw [List.filterMap_append, List.filterMap_cons, hpt]

theorem insufficient_history_excluded_witness :
    (shortFetch "C").length < 200 ∧
    (analyze_stock constIndicators (shortFetch "C") = none ∧
     mainReport constIndicators shortFetch noLookup (["A"] ++ "C" :: ["B"]) =
       mainReport constIndicators shortFetch noLookup ["A"] ++
         mainReport constIndicators shortFetch noLookup ["B"]) :=
  ⟨by norm_num [shortFetch],
   insufficient_history_excluded constIndicators shortFetch noLookup ["A"] ["B"] "C"
     (by norm_num [shortFetch])⟩

/-- C7: when the ticker metadata lookup raises, get_stock_info returns the
raw ticker symbol, yield 0.0 and the sentinel currency N/A; whether the
ticker's record is produced depends only on the fetched bars, and a produced
record carries those fallback values. -/
theorem metadata_failure_fallback (indicators : List PriceBar → Snapshot)
    (fetch : String → List PriceBar) (lookup : String → Option TickerInfo)
    (t : String) (h : lookup t = none) :
    get_stock_info (lookup t) t = (t, 0.0, "N/A") ∧
    ((processTicker indicators fetch lookup t).isSome ↔
      (fetch t).isEmpty = false ∧ 200 ≤ (fetch t).length) ∧
    (∀ r, processTicker indicators fetch lookup t = some r →
      r.name = t ∧ r.div_yield = 0 ∧ r.currency = "N/A") := by
  refine ⟨by rw [h]; rfl, ?_, ?_⟩
  · by_cases he : (fetch t).isEmpty = true
    · have hn : processTicker indicators fetch lookup t = none := by
        simp only [processTicker]
        rw [if_pos he]
      rw [hn]
      simp [he]
    · by_cases hl : (fetch t).length < 200
      · have hn : processTicker indicators fetch lookup t = none := by
          simp only [processTicker, analyze_stock]
          rw [if_neg he, if_pos hl]
        rw [hn]
        simp only [Option.isSome_none, Bool.false_eq_true, false_iff, not_and]
        intro _
        omega
      · have hs : (processTicker indicators fetch lookup t).isSome = true := by
          simp only [processTicker, analyze_stock]
          rw [if_neg he, if_neg hl]
          rfl
        rw [hs]
        exact ⟨fun _ => ⟨by simpa using he, by omega⟩, fun _ => rfl⟩
  · intro r hr
    simp only [processTicker, analyze_stock, h] at hr
    by_cases he : (fetch t).isEmpty = true
    · rw [if_pos he] at hr
      cases hr
    · rw [if_neg he] at hr
      by_cases hl : (fetch t).length < 200
      · rw [if_pos hl] at hr
        cases hr
      · rw [if_neg hl] at hr
        simp only [Option.some.injEq] at hr
        subst hr
        refine ⟨rfl, ?_, rfl⟩
        norm_num [get_stock_info]

theorem metadata_failure_fallback_witness :
    noLookup "X" = none ∧
    (get_stock_info (noLookup "X") "X" = ("X", 0.0, "N/A") ∧
     ((processTicker constIndicators longFetch noLookup "X").isSome ↔
       (longFetch "X").isEmpty = false ∧ 200 ≤ (longFetch "X").length) ∧
     (∀ r, processTicker constIndicators longFetch noLookup "X" = some r →
       r.name = "X" ∧ r.div_yield = 0 ∧ r.currency = "N/A")) :=
  ⟨rfl, metadata_failure_fallback constIndicators longFetch noLookup "X" rfl⟩

/-- C8: the dividend yield is rate/price*100 when the dividend rate and a
positive resolved price are both present (truthy); otherwise it falls back to
the raw yield field, scaled by 100 exactly when that raw value is below 1 and
unchanged when at least 1; a stored None raw value yields 0.0. -/
theorem dividend_yield_computation (info : TickerInfo) :
    (∀ r pr, info.dividendRate = some r → r ≠ 0 →
      pyOr info.currentPrice info.previousClose = some pr → 0 < pr →
      yield_pct info = r / pr * 100) ∧
    (¬ (pyTruthy info.dividendRate = true ∧
        pyTruthy (pyOr info.currentPrice info.previousClose) = true ∧
        0 < (pyOr info.currentPrice info.previousClose).getD 0) →
      ((info.dividendYield = none → yield_pct info = 0) ∧
       (∀ raw, info.dividendYield = some raw → raw < 1 → yield_pct info = raw * 100) ∧
       (∀ raw, info.dividendYield = some raw → 1 ≤ raw → yield_pct info = raw))) := by
  constructor
  · intro r pr hr hr0 hpr hpos
    simp only [yield_pct]
    rw [hr, hpr]
    rw [if_pos ⟨by simp [pyTruthy, hr0], by simp [pyTruthy, hpos.ne'], by simpa using hpos⟩]
    rfl
  · intro hnc
    simp only [yield_pct]
    rw [if_neg hnc]
    refine ⟨?_, ?_, ?_⟩
    · intro hy
      rw [hy]
      norm_num
    · intro raw hy hlt
      rw [hy]
      show (if raw < 1 then raw * 100 else raw) = raw * 100
      rw [if_pos hlt]
    · intro raw hy hge
      rw [hy]
      show (if raw < 1 then raw * 100 else raw) = raw
      rw [if_neg (not_lt.2 hge)]

/-- Witness for C8 at a concrete info dict: rate 2, current price 50. -/
theorem dividend_yield_computation_witness :
    (⟨none, none, some 2, some 50, some 0, some 7⟩ : TickerInfo).dividendRate = some 2 ∧
    (0:ℚ) < 50 ∧
    yield_pct ⟨none, none, some 2, some 50, some 0, some 7⟩ = 2 / 50 * 100 :=
  ⟨rfl, by norm_num,
   (dividend_yield_computation ⟨none, none, some 2, some 50, some 0, some 7⟩).1 2 50 rfl
     (by norm_num) (by norm_num [pyOr, pyTruthy]) (by norm_num)⟩
